import Mathlib

/-!
Shallow embedding of the cometd-rs client (src/advice.rs, src/response.rs,
src/error.rs, src/config.rs, src/client.rs) and proofs about its
response-classification and advice-driven retry logic.

The HTTP transport is modelled by an oracle: a list of exchanges, each one
the batch of JSON elements the server answers with together with the
response cookies.  Every outgoing request consumes one oracle element and is
recorded in a log, so theorems can speak about which requests were issued.
The mutually recursive retry loop of client.rs is embedded as a single
fuel-indexed interpreter `runF`; fuel exhaustion yields `Option.none`, so
all stated results are genuine terminating runs of the code.
-/

namespace Cometd

/-- Mirror of the Reconnect enum of advice.rs. -/
inductive Reconnect where
  | retry
  | handshake
  | none
  deriving DecidableEq

/-- Mirror of the Advice struct of advice.rs. -/
structure Advice where
  reconnect : Reconnect
  timeout : Option Nat := Option.none
  interval : Option Nat := Option.none
  multiple_clients : Option Bool := Option.none
  hosts : Option (List String) := Option.none
  deriving DecidableEq

/-- Mirror of the Error struct of error.rs (the logging side effect is dropped). -/
structure Error where
  message : String
  deriving DecidableEq

/-- Protocol constant COMETD_VERSION of config.rs. -/
def COMETD_VERSION : String := "1.0"

/-- Protocol constant COMETD_SUPPORTED_TYPES of config.rs. -/
def COMETD_SUPPORTED_TYPES : List String := ["long-polling"]

/-- One JSON object of a response batch, flattened onto the fields the
response shapes of response.rs inspect.  A field is `some` when present in
the object with the expected type; serde ignores unknown extra fields, so
this covers exactly the classification-relevant structure. -/
structure JVal where
  channel : Option String := Option.none
  successful : Option Bool := Option.none
  error : Option String := Option.none
  version : Option String := Option.none
  minimum_version : Option String := Option.none
  client_id : Option String := Option.none
  supported_connection_types : Option (List String) := Option.none
  advice : Option Advice := Option.none
  ext : Option Bool := Option.none
  id : Option String := Option.none
  data : Option String := Option.none
  auth_successful : Option Bool := Option.none
  subscription : Option String := Option.none
  deriving DecidableEq

/-- Mirror of ConnectResponse of response.rs. -/
structure ConnectResponse where
  channel : String
  successful : Bool
  error : Option String
  advice : Option Advice
  ext : Option Bool
  client_id : Option String
  id : Option String
  deriving DecidableEq

/-- Mirror of HandshakeResponse of response.rs. -/
structure HandshakeResponse where
  channel : String
  successful : Bool
  error : Option String
  version : Option String
  minimum_version : Option String
  client_id : Option String
  supported_connection_types : Option (List String)
  advice : Option Advice
  ext : Option Bool
  id : Option String
  auth_successful : Option Bool
  deriving DecidableEq

/-- Mirror of PublishResponse of response.rs. -/
structure PublishResponse where
  client_id : String
  successful : Bool
  error : Option String
  advice : Option Advice
  data : String
  deriving DecidableEq

/-- Mirror of the untagged Response enum of response.rs, variants in source
declaration order (the order serde tries them in). -/
inductive Response where
  | handshake (resp : HandshakeResponse)
  | publish (resp : PublishResponse)
  | connect (resp : ConnectResponse)
  deriving DecidableEq

/-- Mirror of the Response::advice accessor. -/
def Response.advice : Response → Option Advice
  | .handshake r => r.advice
  | .publish r => r.advice
  | .connect r => r.advice

/-- Mirror of the Response::successful accessor. -/
def Response.successful : Response → Bool
  | .handshake r => r.successful
  | .publish r => r.successful
  | .connect r => r.successful

/-- Mirror of the Response::error accessor. -/
def Response.error : Response → Option String
  | .handshake r => r.error
  | .publish r => r.error
  | .connect r => r.error

/-- Modelled from the spec: the ErroredResponse type is imported by client.rs
from the response module, but its declaration is absent from the sources.
The spec gives its shape as Errored with channel, successful = false, a
required non-optional error string, and optional clientId, subscription and
advice. -/
structure ErroredResponse where
  channel : String
  successful : Bool
  error : String
  client_id : Option String := Option.none
  subscription : Option String := Option.none
  advice : Option Advice := Option.none
  deriving DecidableEq

/-- Deserialization of one batch element as HandshakeResponse: serde requires
exactly the non-Option fields channel and successful. -/
def parseHandshake (j : JVal) : Option HandshakeResponse :=
  match j.channel, j.successful with
  | some ch, some s =>
      some ⟨ch, s, j.error, j.version, j.minimum_version, j.client_id,
        j.supported_connection_types, j.advice, j.ext, j.id, j.auth_successful⟩
  | _, _ => Option.none

/-- Deserialization of one batch element as PublishResponse: serde requires
client_id, successful and data. -/
def parsePublish (j : JVal) : Option PublishResponse :=
  match j.client_id, j.successful, j.data with
  | some cid, some s, some d => some ⟨cid, s, j.error, j.advice, d⟩
  | _, _, _ => Option.none

/-- Deserialization of one batch element as ConnectResponse: serde requires
channel and successful. -/
def parseConnect (j : JVal) : Option ConnectResponse :=
  match j.channel, j.successful with
  | some ch, some s => some ⟨ch, s, j.error, j.advice, j.ext, j.client_id, j.id⟩
  | _, _ => Option.none

/-- Untagged deserialization of one element as Response: the variants are
tried in declaration order and the first success wins. -/
def parseResponse (j : JVal) : Option Response :=
  match parseHandshake j with
  | some r => some (Response.handshake r)
  | Option.none =>
    match parsePublish j with
    | some r => some (Response.publish r)
    | Option.none =>
      match parseConnect j with
      | some r => some (Response.connect r)
      | Option.none => Option.none

/-- Modelled from the spec: deserialization of one batch element as the
missing ErroredResponse shape — requires channel, successful equal to false
and a non-optional error string. -/
def parseErrored (j : JVal) : Option ErroredResponse :=
  match j.channel, j.successful, j.error with
  | some ch, some false, some e => some ⟨ch, false, e, j.client_id, j.subscription, j.advice⟩
  | _, _, _ => Option.none

/-- serde_json::from_str::<Vec<ErroredResponse>>: the whole batch must parse. -/
def parseErroredBatch : List JVal → Option (List ErroredResponse)
  | [] => some []
  | j :: tl =>
    match parseErrored j with
    | some e =>
      match parseErroredBatch tl with
      | some es => some (e :: es)
      | Option.none => Option.none
    | Option.none => Option.none

/-- serde_json::from_str::<Vec<Response>>: the whole batch must parse. -/
def parseResponseBatch : List JVal → Option (List Response)
  | [] => some []
  | j :: tl =>
    match parseResponse j with
    | some r =>
      match parseResponseBatch tl with
      | some rs => some (r :: rs)
      | Option.none => Option.none
    | Option.none => Option.none

/-- Mirror of the Client struct of client.rs (the reqwest handle is dropped;
max_retries and actual_retries are i8 in the source, kept as Int with
wrapping increment). -/
structure Client where
  base_url : String
  access_token : String
  client_id : Option String
  cookies : List String
  max_retries : Int
  actual_retries : Int
  deriving DecidableEq

/-- Wrapping of a signed 8-bit value, for the actual_retries increment. -/
def wrapI8 (n : Int) : Int := (n + 128) % 256 - 128

/-- Mirror of Client::new (url parsing and http-client construction are
assumed to succeed; they do not depend on the modelled state). -/
def Client.new (base_url access_token : String) : Client :=
  ⟨base_url, access_token, Option.none, [], 1, 0⟩

/-- Mirror of Client::set_retries. -/
def Client.set_retries (c : Client) (retries : Int) : Client :=
  { c with max_retries := retries }

/-- One outgoing request, mirroring the payload structs of client.rs
(field order: channel first, then the remaining payload fields). -/
inductive Req where
  | handshakeReq (channel version : String) (supported_connection_types : List String)
  | connectReq (channel client_id connection_type : String)
  | disconnectReq (channel client_id : String)
  | subscribeReq (channel client_id subscription : String)
  | publishReq (channel client_id data : String)
  deriving DecidableEq

/-- The handshake request body built by retry_handshake. -/
def hsRequest : Req := Req.handshakeReq "/meta/handshake" COMETD_VERSION COMETD_SUPPORTED_TYPES

/-- The connect request body built by retry. -/
def connectRequest (cid : String) : Req := Req.connectReq "/meta/connect" cid "long-polling"

/-- One transport exchange: the batch the server answers with and the
cookies of that HTTP response. -/
structure Exch where
  batch : List JVal
  resp_cookies : List String
  deriving DecidableEq

deriving instance DecidableEq for Except

/-- Result of running a piece of the engine: the Rust return value, the
client state afterwards, the unconsumed oracle suffix and the log of
requests sent, in order. -/
structure Step where
  result : Except Error (List Response)
  client : Client
  oracle : List Exch
  sent : List Req
  deriving DecidableEq

/-- The mutually recursive pieces of client.rs, as one task type:
retry, retry_handshake, handle_advice, handle_error, the element loop of
the errored branch of handle_response, the element loop of the plain
branch, and handle_response itself. -/
inductive Task where
  | retryT
  | retryHandshakeT
  | handleAdviceT (a : Advice) (err : Option String)
  | handleErrorT (e : ErroredResponse)
  | erroredLoopT (es : List ErroredResponse)
  | respLoopT (rs : List Response) (cookies : List String)
  | handleResponseT (ex : Exch)

/-- Fuel-indexed interpreter for the retry engine of client.rs.  Every
recursive call strictly decreases the fuel, so termination is structural;
`Option.none` means the fuel ran out before the code finished. -/
def runF : Nat → Task → Client → List Exch → Option Step
  | 0, _, _, _ => Option.none
  | fuel+1, t, c, orc =>
    match t with
    | .retryT =>
      let c1 := { c with actual_retries := wrapI8 (c.actual_retries + 1) }
      match c1.client_id with
      | some cid =>
        match orc with
        | [] => some ⟨Except.error ⟨"Could not send request to server"⟩, c1, [], [connectRequest cid]⟩
        | ex :: rest =>
          match runF fuel (.handleResponseT ex) c1 rest with
          | Option.none => Option.none
          | some s => some { s with sent := connectRequest cid :: s.sent }
      | Option.none => some ⟨Except.error ⟨"No client id set for connect"⟩, c1, orc, []⟩
    | .retryHandshakeT =>
      let c1 := { c with actual_retries := wrapI8 (c.actual_retries + 1) }
      match orc with
      | [] => some ⟨Except.error ⟨"Could not send request to server"⟩, c1, [], [hsRequest]⟩
      | ex :: rest =>
        match runF fuel (.handleResponseT ex) c1 rest with
        | Option.none => Option.none
        | some s => some { s with sent := hsRequest :: s.sent }
    | .handleAdviceT a err =>
      match a.reconnect with
      | .handshake =>
        if c.actual_retries ≤ c.max_retries then
          match runF fuel .retryHandshakeT c orc with
          | Option.none => Option.none
          | some s =>
            match s.result with
            | .ok _ =>
              match runF fuel .retryT s.client s.oracle with
              | Option.none => Option.none
              | some s2 => some { s2 with sent := s.sent ++ s2.sent }
            | .error _ => some s
        else some ⟨Except.error ⟨err.getD "Max retries reached"⟩, c, orc, []⟩
      | .retry =>
        if c.actual_retries ≤ c.max_retries then runF fuel .retryT c orc
        else some ⟨Except.error ⟨err.getD "Max retries reached"⟩, c, orc, []⟩
      | .none =>
        some ⟨Except.error ⟨err.getD "Service advised not to reconnect nor handshake"⟩, c, orc, []⟩
    | .handleErrorT e =>
      match e.advice with
      | some a => runF fuel (.handleAdviceT a (some e.error)) c orc
      | Option.none => some ⟨Except.error ⟨e.error⟩, c, orc, []⟩
    | .erroredLoopT es =>
      match es with
      | [] => some ⟨Except.ok [], c, orc, []⟩
      | e :: tl =>
        match runF fuel (.handleErrorT e) c orc with
        | Option.none => Option.none
        | some s =>
          match s.result with
          | .error _ => some s
          | .ok rs =>
            match runF fuel (.erroredLoopT tl) s.client s.oracle with
            | Option.none => Option.none
            | some s2 =>
              match s2.result with
              | .error _ => some { s2 with sent := s.sent ++ s2.sent }
              | .ok rs2 => some ⟨Except.ok (rs ++ rs2), s2.client, s2.oracle, s.sent ++ s2.sent⟩
    | .respLoopT rs cookies =>
      match rs with
      | [] => some ⟨Except.ok [], c, orc, []⟩
      | r :: tl =>
        match r.advice with
        | some a =>
          match runF fuel (.handleAdviceT a Option.none) c orc with
          | Option.none => Option.none
          | some s =>
            match s.result with
            | .error _ => some s
            | .ok rsa =>
              match runF fuel (.respLoopT tl cookies) s.client s.oracle with
              | Option.none => Option.none
              | some s2 =>
                match s2.result with
                | .error _ => some { s2 with sent := s.sent ++ s2.sent }
                | .ok rs2 => some ⟨Except.ok (rsa ++ rs2), s2.client, s2.oracle, s.sent ++ s2.sent⟩
        | Option.none =>
          let c1 := match r with
            | .handshake hr => { c with client_id := hr.client_id, cookies := cookies }
            | _ => c
          match runF fuel (.respLoopT tl cookies) c1 orc with
          | Option.none => Option.none
          | some s2 =>
            match s2.result with
            | .error _ => some s2
            | .ok rs2 => some ⟨Except.ok (r :: rs2), s2.client, s2.oracle, s2.sent⟩
    | .handleResponseT ex =>
      match parseErroredBatch ex.batch with
      | some es => runF fuel (.erroredLoopT es) c orc
      | Option.none =>
        match parseResponseBatch ex.batch with
        | some rs => runF fuel (.respLoopT rs ex.resp_cookies) c orc
        | Option.none => some ⟨Except.error ⟨"Could not parse response"⟩, c, orc, []⟩

/-- Mirror of Client::handshake: retry_handshake, then reset actual_retries. -/
def handshake (fuel : Nat) (c : Client) (orc : List Exch) : Option Step :=
  match runF fuel .retryHandshakeT c orc with
  | Option.none => Option.none
  | some s => some { s with client := { s.client with actual_retries := 0 } }

/-- Mirror of Client::connect: retry, then reset actual_retries. -/
def connect (fuel : Nat) (c : Client) (orc : List Exch) : Option Step :=
  match runF fuel .retryT c orc with
  | Option.none => Option.none
  | some s => some { s with client := { s.client with actual_retries := 0 } }

/-- Mirror of Client::init: handshake, propagating its result unchanged. -/
def init (fuel : Nat) (c : Client) (orc : List Exch) : Option Step :=
  handshake fuel c orc

/-- Mirror of Client::disconnect. -/
def disconnect (fuel : Nat) (c : Client) (orc : List Exch) : Option Step :=
  match c.client_id with
  | some cid =>
    match orc with
    | [] => some ⟨Except.error ⟨"Could not send request to server"⟩, c, [],
        [Req.disconnectReq "/meta/disconnect" cid]⟩
    | ex :: rest =>
      match runF fuel (.handleResponseT ex) c rest with
      | Option.none => Option.none
      | some s => some { s with sent := Req.disconnectReq "/meta/disconnect" cid :: s.sent }
  | Option.none => some ⟨Except.error ⟨"No client id set for disconnect"⟩, c, orc, []⟩

/-- Mirror of Client::subscribe. -/
def subscribe (fuel : Nat) (c : Client) (subscription : String) (orc : List Exch) : Option Step :=
  match c.client_id with
  | some cid =>
    match orc with
    | [] => some ⟨Except.error ⟨"Could not send request to server"⟩, c, [],
        [Req.subscribeReq "/meta/subscribe" cid subscription]⟩
    | ex :: rest =>
      match runF fuel (.handleResponseT ex) c rest with
      | Option.none => Option.none
      | some s => some { s with sent := Req.subscribeReq "/meta/subscribe" cid subscription :: s.sent }
  | Option.none => some ⟨Except.error ⟨"No client id set for subscribe"⟩, c, orc, []⟩

/-- Mirror of Client::unsubscribe. -/
def unsubscribe (fuel : Nat) (c : Client) (subscription : String) (orc : List Exch) : Option Step :=
  match c.client_id with
  | some cid =>
    match orc with
    | [] => some ⟨Except.error ⟨"Could not send request to server"⟩, c, [],
        [Req.subscribeReq "/meta/unsubscribe" cid subscription]⟩
    | ex :: rest =>
      match runF fuel (.handleResponseT ex) c rest with
      | Option.none => Option.none
      | some s => some { s with sent := Req.subscribeReq "/meta/unsubscribe" cid subscription :: s.sent }
  | Option.none => some ⟨Except.error ⟨"No client id set for unsubscribe"⟩, c, orc, []⟩

/-- Mirror of Client::publish; the generic data payload is kept opaque as a
string.  The missing-session error message of the source really says
unsubscribe. -/
def publish (fuel : Nat) (c : Client) (channel data : String) (orc : List Exch) : Option Step :=
  match c.client_id with
  | some cid =>
    match orc with
    | [] => some ⟨Except.error ⟨"Could not send request to server"⟩, c, [],
        [Req.publishReq channel cid data]⟩
    | ex :: rest =>
      match runF fuel (.handleResponseT ex) c rest with
      | Option.none => Option.none
      | some s => some { s with sent := Req.publishReq channel cid data :: s.sent }
  | Option.none => some ⟨Except.error ⟨"No client id set for unsubscribe"⟩, c, orc, []⟩

/-! Concrete material used by the theorems below. -/

/-- A client with a bound session, maxRetries 3 and a fresh retry counter,
as produced by Client::new followed by set_retries 3 and a successful
handshake binding client id 1234 (cookies left empty for readability). -/
def cBound : Client := ⟨"url", "tok", some "1234", [], 3, 0⟩

/-- Advice with reconnect = retry and no optional fields. -/
def advRetry : Advice := { reconnect := Reconnect.retry }

/-- Advice with reconnect = handshake and no optional fields. -/
def advHandshake : Advice := { reconnect := Reconnect.handshake }

/-- Advice with reconnect = none and no optional fields. -/
def advNone : Advice := { reconnect := Reconnect.none }

/-- The failed connect element of the retry test of tests.rs:
channel /meta/connect, successful false, error 400::Error, retry advice. -/
def jConnectFail400 : JVal :=
  { channel := some "/meta/connect", successful := some false,
    error := some "400::Error", advice := some advRetry }

/-- The failed connect element of the handshake-advice test of tests.rs. -/
def jConnFailHs : JVal :=
  { channel := some "/meta/connect", successful := some false,
    error := some "error", advice := some advHandshake }

/-- A successful handshake element binding client id 1234. -/
def jHsOk : JVal :=
  { channel := some "/meta/handshake", successful := some true,
    version := some "1.0", client_id := some "1234",
    supported_connection_types := some ["long-polling"] }

/-- The HandshakeResponse jHsOk classifies as. -/
def hsOkResp : HandshakeResponse :=
  ⟨"/meta/handshake", true, Option.none, some "1.0", Option.none, some "1234",
    some ["long-polling"], Option.none, Option.none, Option.none, Option.none⟩

/-- A Delivery-shaped element in the sense of the spec: a data field, a
channel and no successful flag. -/
def jDelivery : JVal := { channel := some "/some/channel", data := some "payload" }

/-- Exchange answering with a successful handshake and one cookie. -/
def exHsOk : Exch := ⟨[jHsOk], ["sessionCookie"]⟩

/-- Exchange answering with an empty batch, which the engine accepts as an
empty success. -/
def exEmptyOk : Exch := ⟨[], []⟩

/-- Exchange answering with the handshake-advice connect failure. -/
def exConnFailHs : Exch := ⟨[jConnFailHs], []⟩

/-- The failed subscribe acknowledgement used for the retry-routing claims. -/
def jSubFailRetry : JVal :=
  { channel := some "/meta/subscribe", successful := some false,
    error := some "403::Denied", advice := some advRetry }

/-- Claim C1: with a bound session and maxRetries 3, a connect exchange that
always answers with the single failed element carrying error 400::Error and
retry advice makes connect() issue exactly four connect requests and then
fail with the original server message; and in general a failed response
with reconnect = retry is retried exactly when the current retry count is
at most maxRetries, otherwise the engine gives up with the server error. -/
theorem c1_retry_budget :
    connect 25 cBound (List.replicate 4 ⟨[jConnectFail400], []⟩) =
      some ⟨Except.error ⟨"400::Error"⟩, cBound, [],
        List.replicate 4 (connectRequest "1234")⟩ ∧
    ∀ (fuel : Nat) (a : Advice) (err : Option String) (c : Client) (orc : List Exch),
      a.reconnect = Reconnect.retry →
      runF (fuel+1) (Task.handleAdviceT a err) c orc =
        if c.actual_retries ≤ c.max_retries then runF fuel Task.retryT c orc
        else some ⟨Except.error ⟨err.getD "Max retries reached"⟩, c, orc, []⟩ := by
  refine ⟨by rfl, ?_⟩
  intro fuel a err c orc h
  simp only [runF, h]

/-- Witness for C1: the general budget rule applied at a concrete input. -/
theorem c1_retry_budget_w :
    runF 1 (Task.handleAdviceT advRetry Option.none) cBound [] =
      if cBound.actual_retries ≤ cBound.max_retries then runF 0 Task.retryT cBound []
      else some ⟨Except.error ⟨(Option.none : Option String).getD "Max retries reached"⟩,
        cBound, [], []⟩ :=
  c1_retry_budget.2 0 advRetry Option.none cBound [] rfl

/-- Counterexample for C2: an element of the Delivery shape described by the
claim (a channel and a data field, no successful flag) does not classify at
all — the code has no Delivery variant — so the exchange fails with the
parse error instead of accepting the element. -/
theorem c2_delivery_cex :
    runF 3 (Task.handleResponseT ⟨[jDelivery], []⟩) cBound [] =
      some ⟨Except.error ⟨"Could not parse response"⟩, cBound, [], []⟩ := by rfl

/-- Claim C2 (amended): classification first tries the whole batch as
ErroredResponse; otherwise each element is tried against the shapes
Handshake, Publish, Connect in that fixed order and the first match wins
(Handshake needs only channel and successful, Publish needs clientId,
successful and data, Connect needs channel and successful; there are no
Delivery or Basic shapes).  If a batch parses neither way the exchange
fails with a parse error and no element is accepted or acted upon. -/
theorem c2_classification :
    (∀ (j : JVal) (h : HandshakeResponse), parseHandshake j = some h →
      parseResponse j = some (Response.handshake h)) ∧
    (∀ (j : JVal) (p : PublishResponse), parseHandshake j = Option.none →
      parsePublish j = some p → parseResponse j = some (Response.publish p)) ∧
    (∀ (j : JVal) (r : ConnectResponse), parseHandshake j = Option.none →
      parsePublish j = Option.none → parseConnect j = some r →
      parseResponse j = some (Response.connect r)) ∧
    (∀ (fuel : Nat) (c : Client) (ex : Exch) (orc : List Exch) (es : List ErroredResponse),
      parseErroredBatch ex.batch = some es →
      runF (fuel+1) (Task.handleResponseT ex) c orc = runF fuel (Task.erroredLoopT es) c orc) ∧
    (∀ (fuel : Nat) (c : Client) (ex : Exch) (orc : List Exch),
      parseErroredBatch ex.batch = Option.none → parseResponseBatch ex.batch = Option.none →
      runF (fuel+1) (Task.handleResponseT ex) c orc =
        some ⟨Except.error ⟨"Could not parse response"⟩, c, orc, []⟩) := by
  refine ⟨?_, ?_, ?_, ?_, ?_⟩
  · intro j h hj; simp [parseResponse, hj]
  · intro j p hj hp; simp [parseResponse, hj, hp]
  · intro j r hj hp hc; simp [parseResponse, hj, hp, hc]
  · intro fuel c ex orc es he; simp only [runF, he]
  · intro fuel c ex orc he hr; simp only [runF, he, hr]

/-- Witness for C2: the priority rule applied to the concrete successful
handshake element. -/
theorem c2_classification_w :
    parseResponse jHsOk = some (Response.handshake hsOkResp) :=
  c2_classification.1 jHsOk hsOkResp rfl

/-- Counterexample for C3: following handshake advice once, with the
handshake succeeding and the retried connect succeeding, leaves the retry
counter two units higher, not one — the pair spends two increments — and on
the handshake-advice test trace with maxRetries 3 the engine issues only
two handshake-connect pairs after the first connect (three connects and two
handshakes in total), not three pairs. -/
theorem c3_pair_cex :
    runF 20 (Task.handleAdviceT advHandshake (some "error")) cBound [exHsOk, exEmptyOk] =
      some ⟨Except.ok [], ⟨"url", "tok", some "1234", ["sessionCookie"], 3, 2⟩, [],
        [hsRequest, connectRequest "1234"]⟩ ∧
    connect 40 cBound [exConnFailHs, exHsOk, exConnFailHs, exHsOk, exConnFailHs] =
      some ⟨Except.error ⟨"error"⟩, ⟨"url", "tok", some "1234", ["sessionCookie"], 3, 0⟩, [],
        [connectRequest "1234", hsRequest, connectRequest "1234", hsRequest,
          connectRequest "1234"]⟩ :=
  ⟨by rfl, by rfl⟩

/-- Claim C3 (amended): when a failed response carries handshake advice and
the retry budget is not exhausted, the engine re-sends a handshake, waits
for its success, then retries the original operation as a connect — but the
pair consumes two retry-count increments, one for the handshake and one for
the connect, not one. -/
theorem c3_handshake_pair :
    ∀ (fuel : Nat) (a : Advice) (e : Option String) (c : Client) (rest : List Exch),
      a.reconnect = Reconnect.handshake →
      c.actual_retries ≤ c.max_retries →
      runF (fuel+5) (Task.handleAdviceT a e) c (exHsOk :: exEmptyOk :: rest) =
        some ⟨Except.ok [], ⟨c.base_url, c.access_token, some "1234", ["sessionCookie"],
          c.max_retries, wrapI8 (wrapI8 (c.actual_retries + 1) + 1)⟩, rest,
          [hsRequest, connectRequest "1234"]⟩ := by
  intro fuel a e c rest ha hle
  simp [runF, ha, hle, exHsOk, exEmptyOk, jHsOk, parseErroredBatch, parseErrored,
    parseResponseBatch, parseResponse, parseHandshake, parsePublish, parseConnect,
    Response.advice]

/-- Witness for C3: the amended pair rule applied at the bound client. -/
theorem c3_handshake_pair_w :
    runF 5 (Task.handleAdviceT advHandshake (some "error")) cBound [exHsOk, exEmptyOk] =
      some ⟨Except.ok [], ⟨cBound.base_url, cBound.access_token, some "1234",
        ["sessionCookie"], cBound.max_retries,
        wrapI8 (wrapI8 (cBound.actual_retries + 1) + 1)⟩, [],
        [hsRequest, connectRequest "1234"]⟩ :=
  c3_handshake_pair 0 advHandshake (some "error") cBound [] rfl (by decide)

/-- Counterexample for C4: a failed subscribe whose response carries retry
advice is retried as a connect request, not as a subscribe. -/
theorem c4_subscribe_retry_cex :
    subscribe 20 cBound "/foo" [⟨[jSubFailRetry], []⟩, exEmptyOk] =
      some ⟨Except.ok [], ⟨"url", "tok", some "1234", [], 3, 1⟩, [],
        [Req.subscribeReq "/meta/subscribe" "1234" "/foo", connectRequest "1234"]⟩ := by rfl

/-- Claim C4 (amended): when the advice decision is FollowRetry for a failed
response to any operation, the engine re-sends a /meta/connect request built
from the session's client id — whatever operation originally failed — with
the retry count incremented. -/
theorem c4_retry_is_connect :
    ∀ (fuel : Nat) (a : Advice) (err : Option String) (c : Client) (orc : List Exch)
      (cid : String),
      a.reconnect = Reconnect.retry → c.actual_retries ≤ c.max_retries →
      c.client_id = some cid →
      runF (fuel+2) (Task.handleAdviceT a err) c orc = runF (fuel+1) Task.retryT c orc ∧
      ∀ s, runF (fuel+1) Task.retryT c orc = some s →
        s.sent.head? = some (connectRequest cid) := by
  intro fuel a err c orc cid ha hle hcid
  refine ⟨by simp [runF, ha, hle], ?_⟩
  intro s hs
  simp only [runF, hcid] at hs
  cases orc with
  | nil =>
    cases hs
    rfl
  | cons ex rest =>
    cases hrun : runF fuel (Task.handleResponseT ex)
        { c with client_id := some cid, actual_retries := wrapI8 (c.actual_retries + 1) } rest with
    | none => simp only [hrun] at hs; cases hs
    | some s1 => simp only [hrun] at hs; cases hs; rfl

/-- Witness for C4: the amended retry rule applied at the bound client. -/
theorem c4_retry_is_connect_w :
    runF 2 (Task.handleAdviceT advRetry Option.none) cBound [] =
      runF 1 Task.retryT cBound [] ∧
    ∀ s, runF 1 Task.retryT cBound [] = some s →
      s.sent.head? = some (connectRequest "1234") :=
  c4_retry_is_connect 0 advRetry Option.none cBound [] "1234" rfl (by decide) rfl

/-- A handshake-classified response carrying no advice: exactly the shape
whose processing in the plain response path overwrites the session. -/
def adviceFreeHandshake : Response → Bool
  | .handshake h => h.advice.isNone
  | _ => false

/-- A batch element whose processing in the plain response path overwrites
client_id and cookies. -/
def bindsSession (j : JVal) : Bool :=
  match parseResponse j with
  | some r => adviceFreeHandshake r
  | Option.none => false

/-- An exchange none of whose elements binds the session. -/
def noBindExch (ex : Exch) : Prop := ∀ j ∈ ex.batch, bindsSession j = false

/-- An oracle none of whose exchanges can bind the session. -/
def noBindOracle (orc : List Exch) : Prop := ∀ ex ∈ orc, noBindExch ex

/-- Tasks whose embedded data cannot bind the session. -/
def Task.noBind : Task → Prop
  | .respLoopT rs _ => ∀ r ∈ rs, adviceFreeHandshake r = false
  | .handleResponseT ex => noBindExch ex
  | _ => True

/-- A batch that parses in the plain path and has no session-binding element
yields only responses that are not advice-free handshakes. -/
lemma parseResponseBatch_noBind :
    ∀ (batch : List JVal) (rs : List Response), parseResponseBatch batch = some rs →
      (∀ j ∈ batch, bindsSession j = false) → ∀ r ∈ rs, adviceFreeHandshake r = false := by
  intro batch
  induction batch with
  | nil =>
    intro rs h hb r hr
    simp only [parseResponseBatch, Option.some.injEq] at h
    subst h
    exact absurd hr (List.not_mem_nil r)
  | cons j tl ih =>
    intro rs h hb r hr
    cases hj : parseResponse j with
    | none => simp only [parseResponseBatch, hj] at h; cases h
    | some r0 =>
      cases htl : parseResponseBatch tl with
      | none => simp only [parseResponseBatch, hj, htl] at h; cases h
      | some rs0 =>
        simp only [parseResponseBatch, hj, htl, Option.some.injEq] at h
        subst h
        rcases List.mem_cons.mp hr with hr0 | hrtl
        · subst hr0
          have hbj := hb j (List.mem_cons_self j tl)
          simp only [bindsSession, hj] at hbj
          exact hbj
        · exact ih rs0 htl (fun j2 hj2 => hb j2 (List.mem_cons_of_mem j hj2)) r hrtl

/-- Core invariant: a run over an oracle without session-binding elements,
from a task without session-binding embedded data, leaves client_id and
cookies untouched and hands back a residual oracle that still has no
session-binding element. -/
lemma runF_session_invariant :
    ∀ (fuel : Nat) (t : Task) (c : Client) (orc : List Exch) (s : Step),
      noBindOracle orc → t.noBind → runF fuel t c orc = some s →
      s.client.client_id = c.client_id ∧ s.client.cookies = c.cookies ∧
        noBindOracle s.oracle := by
  intro fuel
  induction fuel with
  | zero =>
    intro t c orc s _ _ h
    exact absurd h (by simp [runF])
  | succ fuel ih =>
    intro t c orc s hor ht h
    cases t with
    | retryT =>
      simp only [runF] at h
      cases hcid : c.client_id with
      | none =>
        simp only [hcid] at h
        cases h
        exact ⟨rfl, rfl, hor⟩
      | some cid =>
        simp only [hcid] at h
        cases orc with
        | nil =>
          cases h
          exact ⟨rfl, rfl, fun ex hx => absurd hx (List.not_mem_nil ex)⟩
        | cons ex rest =>
          cases hrun : runF fuel (Task.handleResponseT ex)
              { c with client_id := some cid, actual_retries := wrapI8 (c.actual_retries + 1) }
              rest with
          | none => simp only [hrun] at h; cases h
          | some s1 =>
            simp only [hrun] at h
            cases h
            have hex : noBindExch ex := hor ex (List.mem_cons_self ex rest)
            have hrest : noBindOracle rest := fun e he => hor e (List.mem_cons_of_mem ex he)
            have h1 := ih (Task.handleResponseT ex)
              { c with client_id := some cid, actual_retries := wrapI8 (c.actual_retries + 1) }
              rest s1 hrest hex hrun
            exact ⟨h1.1, h1.2.1, h1.2.2⟩
    | retryHandshakeT =>
      simp only [runF] at h
      cases orc with
      | nil =>
        cases h
        exact ⟨rfl, rfl, fun ex hx => absurd hx (List.not_mem_nil ex)⟩
      | cons ex rest =>
        cases hrun : runF fuel (Task.handleResponseT ex)
            { c with actual_retries := wrapI8 (c.actual_retries + 1) } rest with
        | none => simp only [hrun] at h; cases h
        | some s1 =>
          simp only [hrun] at h
          cases h
          have hex : noBindExch ex := hor ex (List.mem_cons_self ex rest)
          have hrest : noBindOracle rest := fun e he => hor e (List.mem_cons_of_mem ex he)
          have h1 := ih (Task.handleResponseT ex)
            { c with actual_retries := wrapI8 (c.actual_retries + 1) } rest s1 hrest hex hrun
          exact ⟨h1.1, h1.2.1, h1.2.2⟩
    | handleAdviceT a err =>
      simp only [runF] at h
      cases hrec : a.reconnect with
      | handshake =>
        simp only [hrec] at h
        split at h
        · cases hrun1 : runF fuel Task.retryHandshakeT c orc with
          | none => simp only [hrun1] at h; cases h
          | some s1 =>
            simp only [hrun1] at h
            have h1 := ih Task.retryHandshakeT c orc s1 hor trivial hrun1
            cases hres : s1.result with
            | error e1 =>
              simp only [hres] at h
              cases h
              exact h1
            | ok rs1 =>
              simp only [hres] at h
              cases hrun2 : runF fuel Task.retryT s1.client s1.oracle with
              | none => simp only [hrun2] at h; cases h
              | some s2 =>
                simp only [hrun2] at h
                cases h
                have h2 := ih Task.retryT s1.client s1.oracle s2 h1.2.2 trivial hrun2
                exact ⟨h2.1.trans h1.1, h2.2.1.trans h1.2.1, h2.2.2⟩
        · cases h
          exact ⟨rfl, rfl, hor⟩
      | retry =>
        simp only [hrec] at h
        split at h
        · exact ih Task.retryT c orc s hor trivial h
        · cases h
          exact ⟨rfl, rfl, hor⟩
      | none =>
        simp only [hrec] at h
        cases h
        exact ⟨rfl, rfl, hor⟩
    | handleErrorT e =>
      simp only [runF] at h
      cases hadv : e.advice with
      | some a =>
        simp only [hadv] at h
        exact ih (Task.handleAdviceT a (some e.error)) c orc s hor trivial h
      | none =>
        simp only [hadv] at h
        cases h
        exact ⟨rfl, rfl, hor⟩
    | erroredLoopT es =>
      simp only [runF] at h
      cases es with
      | nil =>
        cases h
        exact ⟨rfl, rfl, hor⟩
      | cons e tl =>
        cases hrun1 : runF fuel (Task.handleErrorT e) c orc with
        | none => simp only [hrun1] at h; cases h
        | some s1 =>
          simp only [hrun1] at h
          have h1 := ih (Task.handleErrorT e) c orc s1 hor trivial hrun1
          cases hres : s1.result with
          | error e1 =>
            simp only [hres] at h
            cases h
            exact h1
          | ok rs1 =>
            simp only [hres] at h
            cases hrun2 : runF fuel (Task.erroredLoopT tl) s1.client s1.oracle with
            | none => simp only [hrun2] at h; cases h
            | some s2 =>
              simp only [hrun2] at h
              have h2 := ih (Task.erroredLoopT tl) s1.client s1.oracle s2 h1.2.2 trivial hrun2
              cases hres2 : s2.result with
              | error e2 =>
                simp only [hres2] at h
                cases h
                exact ⟨h2.1.trans h1.1, h2.2.1.trans h1.2.1, h2.2.2⟩
              | ok rs2 =>
                simp only [hres2] at h
                cases h
                exact ⟨h2.1.trans h1.1, h2.2.1.trans h1.2.1, h2.2.2⟩
    | respLoopT rs cookies =>
      simp only [runF] at h
      cases rs with
      | nil =>
        cases h
        exact ⟨rfl, rfl, hor⟩
      | cons r tl =>
        have htl : ∀ r2 ∈ tl, adviceFreeHandshake r2 = false :=
          fun r2 h2 => ht r2 (List.mem_cons_of_mem r h2)
        cases hadv : r.advice with
        | some a =>
          simp only [hadv] at h
          cases hrun1 : runF fuel (Task.handleAdviceT a Option.none) c orc with
          | none => simp only [hrun1] at h; cases h
          | some s1 =>
            simp only [hrun1] at h
            have h1 := ih (Task.handleAdviceT a Option.none) c orc s1 hor trivial hrun1
            cases hres : s1.result with
            | error e1 =>
              simp only [hres] at h
              cases h
              exact h1
            | ok rs1 =>
              simp only [hres] at h
              cases hrun2 : runF fuel (Task.respLoopT tl cookies) s1.client s1.oracle with
              | none => simp only [hrun2] at h; cases h
              | some s2 =>
                simp only [hrun2] at h
                have h2 := ih (Task.respLoopT tl cookies) s1.client s1.oracle s2 h1.2.2 htl hrun2
                cases hres2 : s2.result with
                | error e2 =>
                  simp only [hres2] at h
                  cases h
                  exact ⟨h2.1.trans h1.1, h2.2.1.trans h1.2.1, h2.2.2⟩
                | ok rs2 =>
                  simp only [hres2] at h
                  cases h
                  exact ⟨h2.1.trans h1.1, h2.2.1.trans h1.2.1, h2.2.2⟩
        | none =>
          cases r with
          | handshake hr =>
            have hfalse := ht (Response.handshake hr) (List.mem_cons_self _ tl)
            simp only [adviceFreeHandshake] at hfalse
            simp only [Response.advice] at hadv
            rw [hadv] at hfalse
            exact absurd hfalse (by simp)
          | publish pr =>
            simp only [hadv] at h
            cases hrun2 : runF fuel (Task.respLoopT tl cookies) c orc with
            | none => simp only [hrun2] at h; cases h
            | some s2 =>
              simp only [hrun2] at h
              have h2 := ih (Task.respLoopT tl cookies) c orc s2 hor htl hrun2
              cases hres2 : s2.result with
              | error e2 =>
                simp only [hres2] at h
                cases h
                exact h2
              | ok rs2 =>
                simp only [hres2] at h
                cases h
                exact h2
          | connect cr =>
            simp only [hadv] at h
            cases hrun2 : runF fuel (Task.respLoopT tl cookies) c orc with
            | none => simp only [hrun2] at h; cases h
            | some s2 =>
              simp only [hrun2] at h
              have h2 := ih (Task.respLoopT tl cookies) c orc s2 hor htl hrun2
              cases hres2 : s2.result with
              | error e2 =>
                simp only [hres2] at h
                cases h
                exact h2
              | ok rs2 =>
                simp only [hres2] at h
                cases h
                exact h2
    | handleResponseT ex =>
      simp only [runF] at h
      cases hpe : parseErroredBatch ex.batch with
      | some es =>
        simp only [hpe] at h
        exact ih (Task.erroredLoopT es) c orc s hor trivial h
      | none =>
        simp only [hpe] at h
        cases hpr : parseResponseBatch ex.batch with
        | some rs =>
          simp only [hpr] at h
          exact ih (Task.respLoopT rs ex.resp_cookies) c orc s hor
            (parseResponseBatch_noBind ex.batch rs hpr ht) h
        | none =>
          simp only [hpr] at h
          cases h
          exact ⟨rfl, rfl, hor⟩

/-- A failed handshake element that still carries a client id. -/
def jHsFail9999 : JVal :=
  { channel := some "/meta/handshake", successful := some false, version := some "1.0",
    client_id := some "9999", supported_connection_types := some ["long-polling"] }

/-- Counterexample for C5: a handshake-classified response with successful
false and no advice still overwrites client_id and replaces the cookie list
wholesale — a failed handshake does mutate both fields. -/
theorem c5_failed_handshake_cex :
    runF 5 (Task.handleResponseT ⟨[jHsFail9999], ["fresh"]⟩)
        (⟨"url", "tok", some "1234", ["old1", "old2"], 3, 0⟩ : Client) [] =
      some ⟨Except.ok [Response.handshake ⟨"/meta/handshake", false, Option.none, some "1.0",
          Option.none, some "9999", some ["long-polling"], Option.none, Option.none,
          Option.none, Option.none⟩],
        ⟨"url", "tok", some "9999", ["fresh"], 3, 0⟩, [], []⟩ := by rfl

/-- Claim C5 (amended): client_id and the stored cookies are mutated only
when the plain response path processes an element that classifies as a
Handshake and carries no advice — regardless of its successful flag.  When
that happens, client_id is set from the element's clientId field and the
cookie list is replaced wholesale by that exchange's cookies; every run of
every public operation over exchanges containing no such element leaves
both fields untouched. -/
theorem c5_session_binding :
    (∀ (fuel : Nat) (c : Client) (orc : List Exch) (s : Step), noBindOracle orc →
      connect fuel c orc = some s →
      s.client.client_id = c.client_id ∧ s.client.cookies = c.cookies) ∧
    (∀ (fuel : Nat) (c : Client) (orc : List Exch) (s : Step), noBindOracle orc →
      handshake fuel c orc = some s →
      s.client.client_id = c.client_id ∧ s.client.cookies = c.cookies) ∧
    (∀ (fuel : Nat) (c : Client) (orc : List Exch) (s : Step), noBindOracle orc →
      init fuel c orc = some s →
      s.client.client_id = c.client_id ∧ s.client.cookies = c.cookies) ∧
    (∀ (fuel : Nat) (c : Client) (sub : String) (orc : List Exch) (s : Step),
      noBindOracle orc → subscribe fuel c sub orc = some s →
      s.client.client_id = c.client_id ∧ s.client.cookies = c.cookies) ∧
    (∀ (fuel : Nat) (c : Client) (sub : String) (orc : List Exch) (s : Step),
      noBindOracle orc → unsubscribe fuel c sub orc = some s →
      s.client.client_id = c.client_id ∧ s.client.cookies = c.cookies) ∧
    (∀ (fuel : Nat) (c : Client) (ch d : String) (orc : List Exch) (s : Step),
      noBindOracle orc → publish fuel c ch d orc = some s →
      s.client.client_id = c.client_id ∧ s.client.cookies = c.cookies) ∧
    (∀ (fuel : Nat) (c : Client) (orc : List Exch) (s : Step), noBindOracle orc →
      disconnect fuel c orc = some s →
      s.client.client_id = c.client_id ∧ s.client.cookies = c.cookies) ∧
    (∀ (fuel : Nat) (c : Client) (orc : List Exch) (j : JVal) (ck : List String)
      (hr : HandshakeResponse),
      parseErrored j = Option.none → parseResponse j = some (Response.handshake hr) →
      hr.advice = Option.none →
      runF (fuel+3) (Task.handleResponseT ⟨[j], ck⟩) c orc =
        some ⟨Except.ok [Response.handshake hr],
          { c with client_id := hr.client_id, cookies := ck }, orc, []⟩) := by
  refine ⟨?_, ?_, ?_, ?_, ?_, ?_, ?_, ?_⟩
  · intro fuel c orc s hor h
    cases hrun : runF fuel Task.retryT c orc with
    | none => simp only [connect, hrun] at h; cases h
    | some s1 =>
      simp only [connect, hrun] at h
      cases h
      have h1 := runF_session_invariant fuel Task.retryT c orc s1 hor trivial hrun
      exact ⟨h1.1, h1.2.1⟩
  · intro fuel c orc s hor h
    cases hrun : runF fuel Task.retryHandshakeT c orc with
    | none => simp only [handshake, hrun] at h; cases h
    | some s1 =>
      simp only [handshake, hrun] at h
      cases h
      have h1 := runF_session_invariant fuel Task.retryHandshakeT c orc s1 hor trivial hrun
      exact ⟨h1.1, h1.2.1⟩
  · intro fuel c orc s hor h
    cases hrun : runF fuel Task.retryHandshakeT c orc with
    | none => simp only [init, handshake, hrun] at h; cases h
    | some s1 =>
      simp only [init, handshake, hrun] at h
      cases h
      have h1 := runF_session_invariant fuel Task.retryHandshakeT c orc s1 hor trivial hrun
      exact ⟨h1.1, h1.2.1⟩
  · intro fuel c sub orc s hor h
    cases hcid : c.client_id with
    | none =>
      simp only [subscribe, hcid] at h
      cases h
      exact ⟨hcid, rfl⟩
    | some cid =>
      cases orc with
      | nil =>
        simp only [subscribe, hcid] at h
        cases h
        exact ⟨hcid, rfl⟩
      | cons ex rest =>
        simp only [subscribe, hcid] at h
        cases hrun : runF fuel (Task.handleResponseT ex) c rest with
        | none => simp only [hrun] at h; cases h
        | some s1 =>
          simp only [hrun] at h
          cases h
          have h1 := runF_session_invariant fuel (Task.handleResponseT ex) c rest s1
            (fun e he => hor e (List.mem_cons_of_mem ex he))
            (hor ex (List.mem_cons_self ex rest)) hrun
          exact ⟨h1.1.trans hcid, h1.2.1⟩
  · intro fuel c sub orc s hor h
    cases hcid : c.client_id with
    | none =>
      simp only [unsubscribe, hcid] at h
      cases h
      exact ⟨hcid, rfl⟩
    | some cid =>
      cases orc with
      | nil =>
        simp only [unsubscribe, hcid] at h
        cases h
        exact ⟨hcid, rfl⟩
      | cons ex rest =>
        simp only [unsubscribe, hcid] at h
        cases hrun : runF fuel (Task.handleResponseT ex) c rest with
        | none => simp only [hrun] at h; cases h
        | some s1 =>
          simp only [hrun] at h
          cases h
          have h1 := runF_session_invariant fuel (Task.handleResponseT ex) c rest s1
            (fun e he => hor e (List.mem_cons_of_mem ex he))
            (hor ex (List.mem_cons_self ex rest)) hrun
          exact ⟨h1.1.trans hcid, h1.2.1⟩
  · intro fuel c ch d orc s hor h
    cases hcid : c.client_id with
    | none =>
      simp only [publish, hcid] at h
      cases h
      exact ⟨hcid, rfl⟩
    | some cid =>
      cases orc with
      | nil =>
        simp only [publish, hcid] at h
        cases h
        exact ⟨hcid, rfl⟩
      | cons ex rest =>
        simp only [publish, hcid] at h
        cases hrun : runF fuel (Task.handleResponseT ex) c rest with
        | none => simp only [hrun] at h; cases h
        | some s1 =>
          simp only [hrun] at h
          cases h
          have h1 := runF_session_invariant fuel (Task.handleResponseT ex) c rest s1
            (fun e he => hor e (List.mem_cons_of_mem ex he))
            (hor ex (List.mem_cons_self ex rest)) hrun
          exact ⟨h1.1.trans hcid, h1.2.1⟩
  · intro fuel c orc s hor h
    cases hcid : c.client_id with
    | none =>
      simp only [disconnect, hcid] at h
      cases h
      exact ⟨hcid, rfl⟩
    | some cid =>
      cases orc with
      | nil =>
        simp only [disconnect, hcid] at h
        cases h
        exact ⟨hcid, rfl⟩
      | cons ex rest =>
        simp only [disconnect, hcid] at h
        cases hrun : runF fuel (Task.handleResponseT ex) c rest with
        | none => simp only [hrun] at h; cases h
        | some s1 =>
          simp only [hrun] at h
          cases h
          have h1 := runF_session_invariant fuel (Task.handleResponseT ex) c rest s1
            (fun e he => hor e (List.mem_cons_of_mem ex he))
            (hor ex (List.mem_cons_self ex rest)) hrun
          exact ⟨h1.1.trans hcid, h1.2.1⟩
  · intro fuel c orc j ck hr h1 h2 h3
    simp [runF, parseErroredBatch, parseResponseBatch, h1, h2, h3, Response.advice]

/-- Witness for C5: the binding rule applied to the concrete successful
handshake exchange. -/
theorem c5_session_binding_w :
    runF 3 (Task.handleResponseT ⟨[jHsOk], ["sessionCookie"]⟩) cBound [] =
      some ⟨Except.ok [Response.handshake hsOkResp],
        { cBound with client_id := hsOkResp.client_id, cookies := ["sessionCookie"] }, [], []⟩ :=
  c5_session_binding.2.2.2.2.2.2.2 0 cBound [] jHsOk ["sessionCookie"] hsOkResp rfl rfl rfl

/-- Counterexample for C6: connect() on a session-less client whose retry
counter is nonzero fails with the session error and no transport call, but
zeroes the counter — the client state is not left unchanged. -/
theorem c6_connect_state_cex :
    connect 1 (⟨"url", "tok", Option.none, [], 3, 5⟩ : Client) [] =
      some ⟨Except.error ⟨"No client id set for connect"⟩,
        ⟨"url", "tok", Option.none, [], 3, 0⟩, [], []⟩ ∧
    (⟨"url", "tok", Option.none, [], 3, 0⟩ : Client) ≠ ⟨"url", "tok", Option.none, [], 3, 5⟩ :=
  ⟨by rfl, by decide⟩

/-- Claim C6 (amended): every session-requiring operation with client_id
unset fails immediately with a session error and no transport call.
Subscribe, unsubscribe, publish and disconnect leave the client state
exactly unchanged; connect zeroes the retry counter on exit, so its state
is unchanged precisely when the counter was already zero.  Publish's
session error message names unsubscribe. -/
theorem c6_session_required :
    ∀ (fuel : Nat) (c : Client) (orc : List Exch) (sub ch d : String),
      c.client_id = Option.none →
      connect (fuel+1) c orc =
        some ⟨Except.error ⟨"No client id set for connect"⟩,
          { c with actual_retries := 0 }, orc, []⟩ ∧
      (c.actual_retries = 0 → ({ c with actual_retries := 0 } : Client) = c) ∧
      subscribe fuel c sub orc =
        some ⟨Except.error ⟨"No client id set for subscribe"⟩, c, orc, []⟩ ∧
      unsubscribe fuel c sub orc =
        some ⟨Except.error ⟨"No client id set for unsubscribe"⟩, c, orc, []⟩ ∧
      publish fuel c ch d orc =
        some ⟨Except.error ⟨"No client id set for unsubscribe"⟩, c, orc, []⟩ ∧
      disconnect fuel c orc =
        some ⟨Except.error ⟨"No client id set for disconnect"⟩, c, orc, []⟩ := by
  intro fuel c orc sub ch d hcid
  refine ⟨?_, ?_, ?_, ?_, ?_, ?_⟩
  · simp [connect, runF, hcid]
  · intro h0
    cases c
    simp only at h0
    simp [h0]
  · simp [subscribe, hcid]
  · simp [unsubscribe, hcid]
  · simp [publish, hcid]
  · simp [disconnect, hcid]

/-- Witness for C6: the session rule applied to a fresh client, which has no
client id and a zero counter. -/
theorem c6_session_required_w :
    connect 1 (Client.new "url" "tok") [] =
      some ⟨Except.error ⟨"No client id set for connect"⟩,
        { Client.new "url" "tok" with actual_retries := 0 }, [], []⟩ ∧
    ({ Client.new "url" "tok" with actual_retries := 0 } : Client) = Client.new "url" "tok" :=
  have h := c6_session_required 0 (Client.new "url" "tok") [] "s" "c" "d" rfl
  ⟨h.1, h.2.1 rfl⟩

/-- A failed element carrying neither an error field nor advice. -/
def jFailNoAdvice : JVal := { channel := some "/meta/connect", successful := some false }

/-- Counterexample for C7: a failed response with no advice and no error
field is not an error at all for the engine — it classifies as a plain
(handshake-shaped) response, is returned to the caller inside an Ok result,
and even rebinds the session on the way — instead of the operation giving
up with an error as the claim requires. -/
theorem c7_accepted_failure_cex :
    runF 5 (Task.handleResponseT ⟨[jFailNoAdvice], []⟩)
        (⟨"url", "tok", some "1234", ["k"], 3, 0⟩ : Client) [] =
      some ⟨Except.ok [Response.handshake ⟨"/meta/connect", false, Option.none, Option.none,
          Option.none, Option.none, Option.none, Option.none, Option.none, Option.none,
          Option.none⟩],
        ⟨"url", "tok", Option.none, [], 3, 0⟩, [], []⟩ := by rfl

/-- Claim C7 (amended): in the errored path — which only admits responses
with a required error field — a failed response with no advice gives up
immediately with the server error, and reconnect=none advice gives up
immediately with the server error when one was supplied (a synthetic
declined-reconnection message only otherwise); no further request is sent
and no oracle element is consumed.  A failed element lacking the error
field never reaches this path: it classifies as a plain response and can be
returned as accepted. -/
theorem c7_give_up :
    ∀ (fuel : Nat) (e : ErroredResponse) (a : Advice) (err : Option String) (c : Client)
      (orc : List Exch),
      (e.advice = Option.none →
        runF (fuel+1) (Task.handleErrorT e) c orc =
          some ⟨Except.error ⟨e.error⟩, c, orc, []⟩) ∧
      (e.advice = some a → a.reconnect = Reconnect.none →
        runF (fuel+2) (Task.handleErrorT e) c orc =
          some ⟨Except.error ⟨e.error⟩, c, orc, []⟩) ∧
      (a.reconnect = Reconnect.none →
        runF (fuel+1) (Task.handleAdviceT a err) c orc =
          some ⟨Except.error ⟨err.getD "Service advised not to reconnect nor handshake"⟩,
            c, orc, []⟩) := by
  intro fuel e a err c orc
  refine ⟨?_, ?_, ?_⟩
  · intro h; simp [runF, h]
  · intro h1 h2; simp [runF, h1, h2]
  · intro h; simp [runF, h]

/-- Witness for C7: the give-up rule applied to a concrete errored response
without advice. -/
theorem c7_give_up_w :
    runF 1 (Task.handleErrorT ⟨"/meta/connect", false, "408::Timeout", Option.none,
        Option.none, Option.none⟩) cBound [] =
      some ⟨Except.error ⟨"408::Timeout"⟩, cBound, [], []⟩ :=
  (c7_give_up 0 ⟨"/meta/connect", false, "408::Timeout", Option.none, Option.none, Option.none⟩
    advNone Option.none cBound []).1 rfl

/-- The failed disconnect acknowledgement carrying retry advice. -/
def jDiscFailRetry : JVal :=
  { channel := some "/meta/disconnect", successful := some false,
    error := some "409::X", advice := some advRetry }

/-- Exchange answering a disconnect with a retry-advice failure. -/
def exDiscFailRetry : Exch := ⟨[jDiscFailRetry], []⟩

/-- Counterexample for C8: a disconnect whose response carries retry advice
issues a second request — a connect — so disconnect does follow
reconnection advice and performs more than one exchange. -/
theorem c8_disconnect_cex :
    disconnect 20 cBound [exDiscFailRetry, exEmptyOk] =
      some ⟨Except.ok [], ⟨"url", "tok", some "1234", [], 3, 1⟩, [],
        [Req.disconnectReq "/meta/disconnect" "1234", connectRequest "1234"]⟩ := by rfl

/-- Claim C8 (amended): disconnect sends one disconnect request and then
routes the response through the same handler as every other operation, so
advice on a failed disconnect response is followed: with retry advice and
remaining budget the disconnect call issues a second, connect, request, and
the retry-counter increment persists. -/
theorem c8_disconnect_advice :
    ∀ (fuel : Nat) (c : Client) (cid : String) (rest : List Exch),
      c.client_id = some cid → c.actual_retries ≤ c.max_retries →
      disconnect (fuel+7) c (exDiscFailRetry :: exEmptyOk :: rest) =
        some ⟨Except.ok [], { c with actual_retries := wrapI8 (c.actual_retries + 1) }, rest,
          [Req.disconnectReq "/meta/disconnect" cid, connectRequest cid]⟩ := by
  intro fuel c cid rest hcid hle
  simp [disconnect, runF, hcid, hle, exDiscFailRetry, exEmptyOk, jDiscFailRetry, advRetry,
    parseErroredBatch, parseErrored, parseResponseBatch]

/-- Witness for C8: the amended disconnect rule applied at the bound client. -/
theorem c8_disconnect_advice_w :
    disconnect 7 cBound [exDiscFailRetry, exEmptyOk] =
      some ⟨Except.ok [], { cBound with actual_retries := wrapI8 (cBound.actual_retries + 1) },
        [], [Req.disconnectReq "/meta/disconnect" "1234", connectRequest "1234"]⟩ :=
  c8_disconnect_advice 0 cBound "1234" [] rfl (by decide)

/-- The failed subscribe acknowledgement used for the retry-scope claim. -/
def jSubFail401 : JVal :=
  { channel := some "/meta/subscribe", successful := some false,
    error := some "401::Nope", advice := some advRetry }

/-- Counterexample for C9: a subscribe that follows one retry advice
terminates — successfully — with the retry counter at one, not zero, so the
counter is carried into whatever independent call comes next. -/
theorem c9_carryover_cex :
    subscribe 20 (⟨"url", "tok", some "42", [], 2, 0⟩ : Client) "/bar"
        [⟨[jSubFail401], []⟩, exEmptyOk] =
      some ⟨Except.ok [], ⟨"url", "tok", some "42", [], 2, 1⟩, [],
        [Req.subscribeReq "/meta/subscribe" "42" "/bar", connectRequest "42"]⟩ := by rfl

/-- Claim C9 (amended): handshake, init and connect reset the retry counter
to zero when they terminate, whether they succeed or fail; subscribe,
unsubscribe, publish and disconnect never reset it, so an increment accrued
while following advice during those operations persists beyond the call. -/
theorem c9_retry_scope :
    (∀ (fuel : Nat) (c : Client) (orc : List Exch) (s : Step),
      connect fuel c orc = some s → s.client.actual_retries = 0) ∧
    (∀ (fuel : Nat) (c : Client) (orc : List Exch) (s : Step),
      handshake fuel c orc = some s → s.client.actual_retries = 0) ∧
    (∀ (fuel : Nat) (c : Client) (orc : List Exch) (s : Step),
      init fuel c orc = some s → s.client.actual_retries = 0) ∧
    subscribe 20 (⟨"url", "tok", some "77", [], 3, 0⟩ : Client) "/baz"
        [⟨[jSubFail401], []⟩, exEmptyOk] =
      some ⟨Except.ok [], ⟨"url", "tok", some "77", [], 3, 1⟩, [],
        [Req.subscribeReq "/meta/subscribe" "77" "/baz", connectRequest "77"]⟩ := by
  refine ⟨?_, ?_, ?_, by rfl⟩
  · intro fuel c orc s h
    cases hrun : runF fuel Task.retryT c orc with
    | none => simp only [connect, hrun] at h; cases h
    | some s1 => simp only [connect, hrun] at h; cases h; rfl
  · intro fuel c orc s h
    cases hrun : runF fuel Task.retryHandshakeT c orc with
    | none => simp only [handshake, hrun] at h; cases h
    | some s1 => simp only [handshake, hrun] at h; cases h; rfl
  · intro fuel c orc s h
    cases hrun : runF fuel Task.retryHandshakeT c orc with
    | none => simp only [init, handshake, hrun] at h; cases h
    | some s1 => simp only [init, handshake, hrun] at h; cases h; rfl

/-- Witness for C9: the reset rule applied to a concrete connect run. -/
theorem c9_retry_scope_w :
    (⟨Except.error ⟨"Could not send request to server"⟩, cBound, [],
      [connectRequest "1234"]⟩ : Step).client.actual_retries = 0 :=
  c9_retry_scope.1 1 cBound []
    ⟨Except.error ⟨"Could not send request to server"⟩, cBound, [], [connectRequest "1234"]⟩ rfl

/-- Claim C10: in the plain (non-errored) parse path an element carrying an
advice field is never returned to the caller, successful or not: the engine
follows the advice instead; when the decision is give-up the error is the
synthetic declined-reconnection or max-retries message — the element's own
error string never travels this path — and when retry advice is followed
only the retry's own results are returned, without the element. -/
theorem c10_advice_suppression :
    ∀ (r : Response) (a : Advice),
      r.advice = some a →
      (∀ (fuel : Nat) (tl : List Response) (cookies : List String) (c : Client)
        (orc : List Exch),
        a.reconnect = Reconnect.none →
        runF (fuel+2) (Task.respLoopT (r :: tl) cookies) c orc =
          some ⟨Except.error ⟨"Service advised not to reconnect nor handshake"⟩, c, orc, []⟩) ∧
      (∀ (fuel : Nat) (tl : List Response) (cookies : List String) (c : Client)
        (orc : List Exch),
        (a.reconnect = Reconnect.retry ∨ a.reconnect = Reconnect.handshake) →
        c.max_retries < c.actual_retries →
        runF (fuel+2) (Task.respLoopT (r :: tl) cookies) c orc =
          some ⟨Except.error ⟨"Max retries reached"⟩, c, orc, []⟩) ∧
      (∀ (fuel : Nat) (cookies : List String) (c : Client) (cid : String) (orc : List Exch),
        a.reconnect = Reconnect.retry → c.actual_retries ≤ c.max_retries →
        c.client_id = some cid →
        runF (fuel+5) (Task.respLoopT [r] cookies) c (exEmptyOk :: orc) =
          some ⟨Except.ok [], { c with actual_retries := wrapI8 (c.actual_retries + 1) },
            orc, [connectRequest cid]⟩) := by
  intro r a hadv
  refine ⟨?_, ?_, ?_⟩
  · intro fuel tl cookies c orc hn
    simp [runF, hadv, hn]
  · intro fuel tl cookies c orc hd hlt
    have hnle : ¬ c.actual_retries ≤ c.max_retries := not_le.mpr hlt
    rcases hd with hd | hd
    · simp [runF, hadv, hd, hnle]
    · simp [runF, hadv, hd, hnle]
  · intro fuel cookies c cid orc hr hle hcid
    simp [runF, hadv, hr, hle, hcid, exEmptyOk, parseErroredBatch]

/-- Witness for C10: a successful element that carries a server error string
and reconnect=none advice is suppressed and replaced by the synthetic
declined-reconnection error. -/
theorem c10_advice_suppression_w :
    runF 2 (Task.respLoopT [Response.connect ⟨"/x", true, some "500::Boom", some advNone,
        Option.none, Option.none, Option.none⟩] ["ck"]) cBound [] =
      some ⟨Except.error ⟨"Service advised not to reconnect nor handshake"⟩, cBound, [], []⟩ :=
  (c10_advice_suppression (Response.connect ⟨"/x", true, some "500::Boom", some advNone,
    Option.none, Option.none, Option.none⟩) advNone rfl).1 0 [] ["ck"] cBound [] rfl

end Cometd
